import Mathlib

/-!
# Investments calculator: the calculation engine of `src/App.jsx`

A shallow embedding of the numeric core of the React component `App`:
`EXCHANGE_RATES`, `convertCurrency`, `calculateSavings`, the three earnings
functions, `calculateYearlyBreakdown` and the body of the `useEffect` hook that
ties them together.

JavaScript numbers are read in exact arithmetic: every amount lives in a field
`K` (take `K = ℚ` to evaluate, `K = ℝ` for the real-number reading).  Month and
year counts are natural numbers.  A `for` loop over `1..n` is a left fold over
`List.range' 1 n`, the loop variables being the accumulator.
-/

namespace InvestmentsCalculator

/-! ## Data model -/

/-- The three keys of the `EXCHANGE_RATES` table (the options of the currency selector). -/
inductive Currency where
  | BGN
  | USD
  | EUR
  deriving DecidableEq, Repr

/-- One element of the `breakdown` array built by `calculateYearlyBreakdown`. -/
structure YearRow (K : Type) where
  year : Nat
  startBalance : K
  endBalance : K
  contribution : K
  interest : K
  totalReturn : K
  deriving DecidableEq, Repr

/-- The object handed to `setResults` by the `useEffect` hook. -/
structure Results (K : Type) where
  totalSavings : K
  dailyEarnings : K
  monthlyEarnings : K
  yearlyEarnings : K
  yearlyBreakdown : List (YearRow K)
  deriving DecidableEq, Repr

/-- Loop variables of `calculateYearlyBreakdown` that survive from one year to the next. -/
structure BreakdownVars (K : Type) where
  yearStart : K
  yearEnd : K
  breakdown : List (YearRow K)

/-- A JavaScript number as far as the currency lookup is concerned: a finite value or `NaN`. -/
inductive JSNumber (K : Type) where
  | finite (value : K)
  | NaN
  deriving DecidableEq, Repr

/-! ## The engine -/

section Engine

variable {K : Type} [Field K]

/-- The table `EXCHANGE_RATES` (App.jsx 3-7): `BGN: 1, USD: 0.55, EUR: 0.51`. -/
def EXCHANGE_RATES : Currency → K
  | .BGN => 1
  | .USD => 55 / 100
  | .EUR => 51 / 100

/-- `convertCurrency` (App.jsx 30-33) on keys of the table. -/
def convertCurrency (amount : K) (fromCurrency toCurrency : Currency) : K :=
  let inBGN := amount / EXCHANGE_RATES fromCurrency
  inBGN * EXCHANGE_RATES toCurrency

/-- `calculateSavings` (App.jsx 51-76).  Both branches run the same loop body
`totalSavings = (totalSavings + monthlyInvestment) * (1 + monthlyRate)`; the second one
starts from the recursive call on the first twelve months. -/
def calculateSavings (months : Nat) (monthlyInvestment startingBalance apy : K) : K :=
  let monthsPerYear : Nat := 12
  let apyDecimal := apy / 100
  let monthlyRate := apyDecimal / (monthsPerYear : K)
  if h : months ≤ monthsPerYear then
    let totalSavings := startingBalance
    (List.range' 1 months).foldl
      (fun totalSavings _month => (totalSavings + monthlyInvestment) * (1 + monthlyRate))
      totalSavings
  else
    let firstYearSavings := calculateSavings monthsPerYear monthlyInvestment startingBalance apy
    let remainingMonths := months - monthsPerYear
    let totalSavings := firstYearSavings
    (List.range' 1 remainingMonths).foldl
      (fun totalSavings _month => (totalSavings + monthlyInvestment) * (1 + monthlyRate))
      totalSavings
termination_by months
decreasing_by omega

/-- `calculateDailyEarnings` (App.jsx 78-81). -/
def calculateDailyEarnings (principal apy : K) : K :=
  let daysPerYear : K := 365
  principal * ((apy / 100) / daysPerYear)

/-- `calculateMonthlyEarnings` (App.jsx 83-86). -/
def calculateMonthlyEarnings (principal apy : K) : K :=
  let monthsPerYear : K := 12
  principal * ((apy / 100) / monthsPerYear)

/-- `calculateYearlyEarnings` (App.jsx 88-90). -/
def calculateYearlyEarnings (principal apy : K) : K :=
  principal * (apy / 100)

/-- One pass of the loop `for (let year = 2; year <= totalYears; year++)` of
`calculateYearlyBreakdown` (App.jsx 114-128). -/
def breakdownYear (monthlyInvestmentAmount initialBalance apyRate : K)
    (vars : BreakdownVars K) (year : Nat) : BreakdownVars K :=
  let monthsPerYear : Nat := 12
  let yearStart := vars.yearEnd
  let yearEnd := calculateSavings (year * monthsPerYear) monthlyInvestmentAmount initialBalance apyRate
  let yearlyContribution := monthlyInvestmentAmount * (monthsPerYear : K)
  let yearlyInterest := yearEnd - yearStart - yearlyContribution
  { yearStart := yearStart
    yearEnd := yearEnd
    breakdown := vars.breakdown ++
      [{ year := year
         startBalance := yearStart
         endBalance := yearEnd
         contribution := yearlyContribution
         interest := yearlyInterest
         totalReturn := yearlyInterest / (yearStart + yearlyContribution) * 100 }] }

/-- `calculateYearlyBreakdown` (App.jsx 92-131): the first year is pushed before the loop,
the years `2..totalYears` inside it. -/
def calculateYearlyBreakdown (monthlyInvestmentAmount initialBalance : K) (totalYears : Nat)
    (apyRate : K) : List (YearRow K) :=
  let monthsPerYear : Nat := 12
  let yearStart := initialBalance
  let yearEnd := calculateSavings monthsPerYear monthlyInvestmentAmount initialBalance apyRate
  let yearlyContribution := monthlyInvestmentAmount * (monthsPerYear : K)
  let yearlyInterest := yearEnd - yearStart - yearlyContribution
  let first : BreakdownVars K :=
    { yearStart := yearStart
      yearEnd := yearEnd
      breakdown :=
        [{ year := 1
           startBalance := yearStart
           endBalance := yearEnd
           contribution := yearlyContribution
           interest := yearlyInterest
           totalReturn := yearlyInterest / (yearStart + yearlyContribution) * 100 }] }
  ((List.range' 2 (totalYears - 1)).foldl
    (breakdownYear monthlyInvestmentAmount initialBalance apyRate) first).breakdown

/-- The `.map` callback of the hook (App.jsx 144-150): the four monetary fields of a row go
from BGN to the selected currency, `year` and `totalReturn` are copied. -/
def convertRow (currency : Currency) (year : YearRow K) : YearRow K :=
  { year with
    startBalance := convertCurrency year.startBalance Currency.BGN currency
    endBalance := convertCurrency year.endBalance Currency.BGN currency
    contribution := convertCurrency year.contribution Currency.BGN currency
    interest := convertCurrency year.interest Currency.BGN currency }

/-- The body of the `useEffect` hook (App.jsx 133-160); the value is the argument of
`setResults`. -/
def computeResults (monthlyInvestment startingBalance apy : K) (years : Nat)
    (currency : Currency) : Results K :=
  let monthlyInvestmentBGN := convertCurrency monthlyInvestment currency Currency.BGN
  let startingBalanceBGN := convertCurrency startingBalance currency Currency.BGN
  let totalSavings := calculateSavings (years * 12) monthlyInvestmentBGN startingBalanceBGN apy
  let dailyEarnings := calculateDailyEarnings totalSavings apy
  let monthlyEarnings := calculateMonthlyEarnings totalSavings apy
  let yearlyEarnings := calculateYearlyEarnings totalSavings apy
  let breakdown :=
    (calculateYearlyBreakdown monthlyInvestmentBGN startingBalanceBGN years apy).map
      (convertRow currency)
  { totalSavings := convertCurrency totalSavings Currency.BGN currency
    dailyEarnings := convertCurrency dailyEarnings Currency.BGN currency
    monthlyEarnings := convertCurrency monthlyEarnings Currency.BGN currency
    yearlyEarnings := convertCurrency yearlyEarnings Currency.BGN currency
    yearlyBreakdown := breakdown }

/-! ## Currency codes as strings -/

/-- The property read `EXCHANGE_RATES[code]` for an arbitrary string: one of the three keys,
or nothing that arithmetic can use (`undefined`, or an inherited non-numeric property). -/
def Currency.ofCode : String → Option Currency
  | "BGN" => some Currency.BGN
  | "USD" => some Currency.USD
  | "EUR" => some Currency.EUR
  | _ => none

/-- `convertCurrency` (App.jsx 30-33) called with arbitrary strings as currency codes.  The
body has no `throw`: a failed lookup makes the division or the product `NaN`, and that is
what is returned.  `Except` leaves room for an error so that the absence of one can be
stated. -/
def convertCurrencyByCode (amount : K) (fromCurrency toCurrency : String) :
    Except String (JSNumber K) :=
  match Currency.ofCode fromCurrency, Currency.ofCode toCurrency with
  | some f, some t => Except.ok (JSNumber.finite (convertCurrency amount f t))
  | _, _ => Except.ok JSNumber.NaN

/-! ## The reference computation of the specification -/

/-- The step rule of the specification, `balance := (balance + c) * (1 + y/100/12)`. -/
def monthlyStep (c y : K) (balance : K) : K :=
  (balance + c) * (1 + y / 100 / 12)

/-- Direct iteration of the specification: the step rule applied `months` times from `s`. -/
def directIteration (months : Nat) (c s y : K) : K :=
  (monthlyStep c y)^[months] s

/-- The row for year `k` written from month 0: both balances are `calculateSavings` at a
multiple of twelve months (used to describe the rows of `calculateYearlyBreakdown`). -/
def yearRowAt (c s y : K) (k : Nat) : YearRow K :=
  { year := k
    startBalance := calculateSavings ((k - 1) * 12) c s y
    endBalance := calculateSavings (k * 12) c s y
    contribution := c * 12
    interest := calculateSavings (k * 12) c s y - calculateSavings ((k - 1) * 12) c s y - c * 12
    totalReturn :=
      (calculateSavings (k * 12) c s y - calculateSavings ((k - 1) * 12) c s y - c * 12)
        / (calculateSavings ((k - 1) * 12) c s y + c * 12) * 100 }

end Engine

/-! ## Loops as iterations -/

section LoopLemmas

variable {K : Type} [Field K]

/-- A fold that ignores the loop index applies its body once per index. -/
theorem foldl_range'_ignore {α : Type} (f : α → α) (n : Nat) :
    ∀ (a : Nat) (s : α), (List.range' a n).foldl (fun b _ => f b) s = f^[n] s := by
  induction n with
  | zero => intro a s; rfl
  | succ n ih =>
    intro a s
    rw [List.range'_succ, List.foldl_cons, ih, Function.iterate_succ_apply]

/-- The loop of `calculateSavings`, run `n` times, is `n` applications of the step rule. -/
theorem savingsLoop_eq_iterate (c y : K) (a n : Nat) (s : K) :
    (List.range' a n).foldl
      (fun totalSavings _month => (totalSavings + c) * (1 + y / 100 / ((12 : Nat) : K))) s
      = (monthlyStep c y)^[n] s := by
  have h := foldl_range'_ignore (monthlyStep c y) n a s
  simpa [monthlyStep] using h

/-- The first branch of `calculateSavings`. -/
theorem calculateSavings_le (months : Nat) (c s y : K) (h : months ≤ 12) :
    calculateSavings months c s y = (monthlyStep c y)^[months] s := by
  rw [calculateSavings]
  simp only [h, dite_true]
  exact savingsLoop_eq_iterate c y 1 months s

/-- The second branch of `calculateSavings`. -/
theorem calculateSavings_gt (months : Nat) (c s y : K) (h : 12 < months) :
    calculateSavings months c s y
      = (monthlyStep c y)^[months - 12] (calculateSavings 12 c s y) := by
  rw [calculateSavings]
  have h' : ¬ months ≤ 12 := by omega
  simp only [h', dite_false]
  exact savingsLoop_eq_iterate c y 1 (months - 12) _

/-- The two-phase computation agrees with direct iteration of the step rule. -/
theorem calculateSavings_eq_iterate (months : Nat) (c s y : K) :
    calculateSavings months c s y = (monthlyStep c y)^[months] s := by
  rcases Nat.lt_or_ge 12 months with h | h
  · rw [calculateSavings_gt months c s y h, calculateSavings_le 12 c s y (le_refl 12),
      ← Function.iterate_add_apply]
    congr 1
    omega
  · exact calculateSavings_le months c s y h

end LoopLemmas

/-! ## Algebra of the step rule -/

section StepAlgebra

variable {K : Type} [Field K]

/-- Scaling contribution and balance by `t` scales every later balance by `t`. -/
theorem monthlyStep_iterate_scale (c y t : K) (n : Nat) (s : K) :
    (monthlyStep (c * t) y)^[n] (s * t) = (monthlyStep c y)^[n] s * t := by
  induction n with
  | zero => rfl
  | succ n ih =>
    rw [Function.iterate_succ_apply', Function.iterate_succ_apply', ih]
    simp only [monthlyStep]
    ring

/-- Two starting balances drift apart by the compounded factor. -/
theorem monthlyStep_iterate_sub (c y : K) (n : Nat) (s t : K) :
    (monthlyStep c y)^[n] s - (monthlyStep c y)^[n] t = (s - t) * (1 + y / 100 / 12) ^ n := by
  induction n with
  | zero => simp
  | succ n ih =>
    rw [Function.iterate_succ_apply', Function.iterate_succ_apply', pow_succ, ← mul_assoc, ← ih]
    simp only [monthlyStep]
    ring

/-- At zero yield the step rule only adds the contribution. -/
theorem monthlyStep_iterate_zero_yield (c : K) (n : Nat) (s : K) :
    (monthlyStep c 0)^[n] s = s + n * c := by
  induction n with
  | zero => simp
  | succ n ih =>
    rw [Function.iterate_succ_apply', ih]
    simp only [monthlyStep]
    push_cast
    ring

end StepAlgebra

section StepOrder

variable {K : Type} [LinearOrderedField K]

/-- Every rate of the table is nonzero. -/
theorem EXCHANGE_RATES_ne_zero (cur : Currency) : (EXCHANGE_RATES cur : K) ≠ 0 := by
  cases cur <;> simp [EXCHANGE_RATES]

/-- Above the bound of -1200 percent the monthly factor is positive. -/
theorem factor_pos (y : K) (hy : -1200 < y) : 0 < 1 + y / 100 / 12 := by
  have h : 1 + y / 100 / 12 = (1200 + y) / 1200 := by ring
  rw [h]
  exact div_pos (by linarith) (by norm_num)

/-- A positive yield gives a monthly factor above one. -/
theorem one_lt_factor (y : K) (hy : 0 < y) : 1 < 1 + y / 100 / 12 := by
  have h : 0 < y / 100 / 12 := by positivity
  linarith

/-- With money in play and a positive factor, balance plus contribution stays positive. -/
theorem iterate_add_pos (c s y : K) (hc : 0 ≤ c) (hs : 0 ≤ s) (hcs : 0 < c ∨ 0 < s)
    (hy : -1200 < y) (n : Nat) : 0 < (monthlyStep c y)^[n] s + c := by
  have hq := factor_pos y hy
  induction n with
  | zero =>
    simp only [Function.iterate_zero, id_eq]
    rcases hcs with h | h <;> linarith
  | succ n ih =>
    rw [Function.iterate_succ_apply']
    have h : 0 < monthlyStep c y ((monthlyStep c y)^[n] s) := mul_pos ih hq
    linarith

/-- Balances are never negative under the same conditions. -/
theorem iterate_nonneg (c s y : K) (hc : 0 ≤ c) (hs : 0 ≤ s) (hcs : 0 < c ∨ 0 < s)
    (hy : -1200 < y) (n : Nat) : 0 ≤ (monthlyStep c y)^[n] s := by
  cases n with
  | zero => simpa using hs
  | succ n =>
    rw [Function.iterate_succ_apply']
    exact le_of_lt (mul_pos (iterate_add_pos c s y hc hs hcs hy n) (factor_pos y hy))

/-- After at least one month a higher yield gives a strictly higher balance. -/
theorem iterate_lt_of_yield_lt (c s y1 y2 : K) (hc : 0 ≤ c) (hs : 0 ≤ s) (hcs : 0 < c ∨ 0 < s)
    (h1 : -1200 < y1) (h12 : y1 < y2) (n : Nat) :
    (monthlyStep c y1)^[n + 1] s < (monthlyStep c y2)^[n + 1] s := by
  have hq1 := factor_pos y1 h1
  have hq : 1 + y1 / 100 / 12 < 1 + y2 / 100 / 12 := by
    have : y1 / 100 / 12 < y2 / 100 / 12 := by
      apply div_lt_div_of_pos_right _ (by norm_num)
      exact div_lt_div_of_pos_right h12 (by norm_num)
    linarith
  induction n with
  | zero =>
    simp only [zero_add, Function.iterate_one, monthlyStep]
    have hpos : 0 < s + c := by rcases hcs with h | h <;> linarith
    exact mul_lt_mul_of_pos_left hq hpos
  | succ n ih =>
    rw [Function.iterate_succ_apply' (monthlyStep c y1), Function.iterate_succ_apply' (monthlyStep c y2)]
    have ha := iterate_add_pos c s y1 hc hs hcs h1 (n + 1)
    exact mul_lt_mul'' (by linarith) hq (le_of_lt ha) (le_of_lt hq1)

/-- With a positive yield one more month adds more than the contribution. -/
theorem iterate_succ_gt (c s y : K) (hc : 0 ≤ c) (hs : 0 ≤ s) (hcs : 0 < c ∨ 0 < s)
    (hy : 0 < y) (n : Nat) :
    (monthlyStep c y)^[n] s + c < (monthlyStep c y)^[n + 1] s := by
  rw [Function.iterate_succ_apply']
  have ha := iterate_add_pos c s y hc hs hcs (by linarith) n
  have hq := one_lt_factor y hy
  simp only [monthlyStep]
  nlinarith

/-- With a positive yield `m + 1` more months add more than `m + 1` contributions. -/
theorem iterate_add_gt (c s y : K) (hc : 0 ≤ c) (hs : 0 ≤ s) (hcs : 0 < c ∨ 0 < s)
    (hy : 0 < y) (n m : Nat) :
    (monthlyStep c y)^[n] s + (m + 1 : Nat) * c < (monthlyStep c y)^[n + (m + 1)] s := by
  induction m with
  | zero => simpa using iterate_succ_gt c s y hc hs hcs hy n
  | succ m ih =>
    have h := iterate_succ_gt c s y hc hs hcs hy (n + (m + 1))
    have e : n + (m + 1 + 1) = n + (m + 1) + 1 := by omega
    rw [e]
    push_cast at ih ⊢
    linarith

end StepOrder

/-! ## The rows of the breakdown -/

section BreakdownLemmas

variable {K : Type} [Field K]

/-- Zero months leave the starting balance untouched. -/
theorem calculateSavings_zero_months (c s y : K) : calculateSavings 0 c s y = s := by
  rw [calculateSavings_eq_iterate]
  rfl

/-- Loop invariant of `calculateYearlyBreakdown`: entering year `a` with the balance of
month `(a - 1) * 12` in `yearEnd`, the loop appends the rows of the years it runs through. -/
theorem breakdownYear_foldl (c s y : K) (n : Nat) :
    ∀ (a : Nat) (vars : BreakdownVars K),
      vars.yearEnd = calculateSavings ((a - 1) * 12) c s y →
      ((List.range' a n).foldl (breakdownYear c s y) vars).breakdown
        = vars.breakdown ++ (List.range' a n).map (yearRowAt c s y) := by
  induction n with
  | zero => intro a vars _; simp
  | succ n ih =>
    intro a vars hv
    rw [List.range'_succ, List.foldl_cons, ih (a + 1) (breakdownYear c s y vars a) (by
      simp [breakdownYear])]
    simp [breakdownYear, yearRowAt, hv]

/-- The breakdown is the list of the rows of the years `1, 2, ...`; the first row is always
there. -/
theorem calculateYearlyBreakdown_eq_map (c s : K) (totalYears : Nat) (y : K) :
    calculateYearlyBreakdown c s totalYears y
      = (List.range' 1 (totalYears - 1 + 1)).map (yearRowAt c s y) := by
  unfold calculateYearlyBreakdown
  simp only []
  rw [breakdownYear_foldl c s y (totalYears - 1) 2 _ (by simp), List.range'_succ]
  simp [yearRowAt, calculateSavings_zero_months]

/-- Number of rows of the breakdown. -/
theorem calculateYearlyBreakdown_length (c s : K) (totalYears : Nat) (y : K) :
    (calculateYearlyBreakdown c s totalYears y).length = totalYears - 1 + 1 := by
  simp [calculateYearlyBreakdown_eq_map]

/-- The row at position `i` is the row of year `i + 1`. -/
theorem calculateYearlyBreakdown_getElem? (c s : K) (totalYears : Nat) (y : K) (i : Nat)
    (hi : i < totalYears - 1 + 1) :
    (calculateYearlyBreakdown c s totalYears y)[i]? = some (yearRowAt c s y (i + 1)) := by
  rw [calculateYearlyBreakdown_eq_map, List.getElem?_map, List.getElem?_range' 1 1 hi]
  simp [Nat.add_comm]

/-- Membership in the breakdown. -/
theorem mem_calculateYearlyBreakdown (c s : K) (totalYears : Nat) (y : K) (row : YearRow K) :
    row ∈ calculateYearlyBreakdown c s totalYears y
      ↔ ∃ k, 1 ≤ k ∧ k ≤ totalYears - 1 + 1 ∧ row = yearRowAt c s y k := by
  rw [calculateYearlyBreakdown_eq_map, List.mem_map]
  constructor
  · rintro ⟨k, hk, rfl⟩
    rw [List.mem_range'_1] at hk
    exact ⟨k, hk.1, by omega, rfl⟩
  · rintro ⟨k, h1, h2, rfl⟩
    exact ⟨k, List.mem_range'_1.mpr ⟨h1, by omega⟩, rfl⟩

end BreakdownLemmas

/-! ## Currency conversion around the engine -/

section FacadeLemmas

variable {K : Type} [LinearOrderedField K]

/-- Conversion into BGN divides by the rate. -/
theorem convertCurrency_to_BGN (x : K) (cur : Currency) :
    convertCurrency x cur Currency.BGN = x * (EXCHANGE_RATES cur)⁻¹ := by
  simp [convertCurrency, EXCHANGE_RATES, div_eq_mul_inv]

/-- Conversion out of BGN multiplies by the rate. -/
theorem convertCurrency_from_BGN (x : K) (cur : Currency) :
    convertCurrency x Currency.BGN cur = x * EXCHANGE_RATES cur := by
  simp [convertCurrency, EXCHANGE_RATES]

/-- Converting into BGN and back gives the amount again. -/
theorem convertCurrency_BGN_cancel (x : K) (cur : Currency) :
    x * (EXCHANGE_RATES cur)⁻¹ * EXCHANGE_RATES cur = x := by
  rw [mul_assoc, inv_mul_cancel₀ (EXCHANGE_RATES_ne_zero cur), mul_one]

/-- `calculateSavings` is homogeneous in the pair (contribution, starting balance). -/
theorem calculateSavings_scale (months : Nat) (c s y t : K) :
    calculateSavings months (c * t) (s * t) y = calculateSavings months c s y * t := by
  rw [calculateSavings_eq_iterate, calculateSavings_eq_iterate, monthlyStep_iterate_scale]

/-- A row computed from amounts in BGN and converted back is the row of the original amounts. -/
theorem convertRow_yearRowAt (m s y : K) (cur : Currency) (k : Nat) :
    convertRow cur
        (yearRowAt (convertCurrency m cur Currency.BGN) (convertCurrency s cur Currency.BGN) y k)
      = yearRowAt m s y k := by
  have hr : (EXCHANGE_RATES cur : K)⁻¹ ≠ 0 := inv_ne_zero (EXCHANGE_RATES_ne_zero cur)
  have hc : ∀ x : K, x * (EXCHANGE_RATES cur)⁻¹ * EXCHANGE_RATES cur = x :=
    fun x => convertCurrency_BGN_cancel x cur
  simp only [convertRow, yearRowAt, convertCurrency_to_BGN, convertCurrency_from_BGN,
    calculateSavings_scale]
  have e1 : ∀ a b d : K, (a * (EXCHANGE_RATES cur)⁻¹ - b * (EXCHANGE_RATES cur)⁻¹
      - d * (EXCHANGE_RATES cur)⁻¹ * 12) = (a - b - d * 12) * (EXCHANGE_RATES cur)⁻¹ := by
    intro a b d; ring
  have e2 : ∀ b d : K, (b * (EXCHANGE_RATES cur)⁻¹ + d * (EXCHANGE_RATES cur)⁻¹ * 12)
      = (b + d * 12) * (EXCHANGE_RATES cur)⁻¹ := by
    intro b d; ring
  have e3 : ∀ d : K, d * (EXCHANGE_RATES cur)⁻¹ * 12 * EXCHANGE_RATES cur = d * 12 := by
    intro d
    rw [mul_right_comm d _ 12, hc]
  rw [e1, e2, e3, hc, hc, hc, mul_div_mul_right _ _ hr]

/-- The breakdown of the hook is the breakdown of the amounts as entered. -/
theorem computeResults_yearlyBreakdown (m s y : K) (years : Nat) (cur : Currency) :
    (computeResults m s y years cur).yearlyBreakdown = calculateYearlyBreakdown m s years y := by
  simp only [computeResults, calculateYearlyBreakdown_eq_map, List.map_map]
  apply List.map_congr_left
  intro k _
  exact convertRow_yearRowAt m s y cur k

/-- The total of the hook is the projection of the amounts as entered. -/
theorem computeResults_totalSavings (m s y : K) (years : Nat) (cur : Currency) :
    (computeResults m s y years cur).totalSavings = calculateSavings (years * 12) m s y := by
  simp only [computeResults, convertCurrency_to_BGN, convertCurrency_from_BGN,
    calculateSavings_scale, convertCurrency_BGN_cancel]

end FacadeLemmas

/-! ## Properties of the specification -/

section Claims

variable {K : Type} [LinearOrderedField K]

/-- C1: for every number of months and all contribution, starting balance and yield, the
two-phase `calculateSavings` equals the step rule `balance := (balance + c) * (1 + y/100/12)`
applied `months` times from the starting balance; zero months return the starting balance
unchanged, and twelve months with contribution 2500, balance 0 and yield 2.5 equal the
twelve-fold iteration of `balance = (balance + 2500) * (1 + 0.025/12)` from 0. -/
theorem calculateSavings_eq_directIteration :
    (∀ (months : Nat) (c s y : K), calculateSavings months c s y = directIteration months c s y)
    ∧ (∀ (c s y : K), calculateSavings 0 c s y = s)
    ∧ calculateSavings 12 (2500 : K) 0 2.5
        = (fun balance : K => (balance + 2500) * (1 + 0.025 / 12))^[12] 0 := by
  refine ⟨fun months c s y => calculateSavings_eq_iterate months c s y,
    fun c s y => calculateSavings_zero_months c s y, ?_⟩
  rw [calculateSavings_eq_iterate]
  have e : monthlyStep (2500 : K) 2.5 = fun balance : K => (balance + 2500) * (1 + 0.025 / 12) := by
    funext b
    simp only [monthlyStep]
    norm_num
  rw [e]

/-- C2: with zero yield, non-negative contribution and starting balance, at least one year
and any of the three currencies, the total savings of the hook (convert to BGN, project over
`horizonYears * 12` months, convert back) equal
`startingBalance + monthlyContribution * horizonYears * 12`. -/
theorem zero_yield_totalSavings (monthlyContribution startingBalance : K) (horizonYears : Nat)
    (currency : Currency) (_hm : 0 ≤ monthlyContribution) (_hs : 0 ≤ startingBalance)
    (_hh : 1 ≤ horizonYears) :
    (computeResults monthlyContribution startingBalance 0 horizonYears currency).totalSavings
      = startingBalance + monthlyContribution * horizonYears * 12 := by
  rw [computeResults_totalSavings, calculateSavings_eq_iterate, monthlyStep_iterate_zero_yield]
  push_cast
  ring

/-- Witness of C2: 2500 a month on top of 1000, three years, in USD. -/
theorem zero_yield_totalSavings_witness :
    (0 : ℚ) ≤ 2500 ∧ (0 : ℚ) ≤ 1000 ∧ 1 ≤ 3 ∧
      (computeResults (2500 : ℚ) 1000 0 3 Currency.USD).totalSavings
        = 1000 + 2500 * ((3 : Nat) : ℚ) * 12 :=
  ⟨by norm_num, by norm_num, by decide,
    zero_yield_totalSavings (2500 : ℚ) 1000 3 Currency.USD (by norm_num) (by norm_num)
      (by decide)⟩

/-- C4: monotonicity in the yield.  For at least one year, non-negative contribution and
starting balance with one of them positive, and yields `-1200 < y1 < y2`, the balance
after `horizonYears * 12` months is strictly smaller at `y1` than at `y2`. -/
theorem calculateSavings_strictMono_yield (horizonYears : Nat)
    (monthlyContribution startingBalance y1 y2 : K) (hh : 1 ≤ horizonYears)
    (hc : 0 ≤ monthlyContribution) (hs : 0 ≤ startingBalance)
    (hpos : 0 < monthlyContribution ∨ 0 < startingBalance) (h1 : -1200 < y1) (h12 : y1 < y2) :
    calculateSavings (horizonYears * 12) monthlyContribution startingBalance y1
      < calculateSavings (horizonYears * 12) monthlyContribution startingBalance y2 := by
  obtain ⟨n, hn⟩ : ∃ n, horizonYears * 12 = n + 1 := ⟨horizonYears * 12 - 1, by omega⟩
  rw [calculateSavings_eq_iterate, calculateSavings_eq_iterate, hn]
  exact iterate_lt_of_yield_lt monthlyContribution startingBalance y1 y2 hc hs hpos h1 h12 n

/-- Witness of C4: one year of 2500 a month from nothing, yield 2.5 against 3. -/
theorem calculateSavings_strictMono_yield_witness :
    1 ≤ 1 ∧ (0 : ℚ) ≤ 2500 ∧ (0 : ℚ) ≤ 0 ∧ ((0 : ℚ) < 2500 ∨ (0 : ℚ) < 0)
      ∧ (-1200 : ℚ) < 5 / 2 ∧ (5 / 2 : ℚ) < 3
      ∧ calculateSavings (1 * 12) (2500 : ℚ) 0 (5 / 2) < calculateSavings (1 * 12) (2500 : ℚ) 0 3 :=
  ⟨by decide, by norm_num, le_refl 0, Or.inl (by norm_num), by norm_num, by norm_num,
    calculateSavings_strictMono_yield 1 (2500 : ℚ) 0 (5 / 2) 3 (by decide) (by norm_num)
      (le_refl 0) (Or.inl (by norm_num)) (by norm_num) (by norm_num)⟩

/-- C5: currency round trip.  For every amount and every pair of currencies of the table,
converting from `A` to `B` and back from `B` to `A` returns the amount. -/
theorem convertCurrency_roundTrip (x : K) (A B : Currency) :
    convertCurrency (convertCurrency x A B) B A = x := by
  have hA : (EXCHANGE_RATES A : K) ≠ 0 := EXCHANGE_RATES_ne_zero A
  have hB : (EXCHANGE_RATES B : K) ≠ 0 := EXCHANGE_RATES_ne_zero B
  simp only [convertCurrency]
  field_simp
  ring

/-- C10: currency independence of the hook.  For every currency of the table, all amounts,
every yield and at least one year, converting the inputs to BGN, running the engine and
converting the monetary results back gives the same total and the same rows as running
`calculateSavings (12 * years)` and `calculateYearlyBreakdown` on the amounts as entered. -/
theorem computeResults_currency_independent (X : Currency) (m s y : K) (years : Nat)
    (_hyears : 1 ≤ years) :
    (computeResults m s y years X).totalSavings = calculateSavings (12 * years) m s y
      ∧ (computeResults m s y years X).yearlyBreakdown = calculateYearlyBreakdown m s years y := by
  refine ⟨?_, computeResults_yearlyBreakdown m s y years X⟩
  rw [computeResults_totalSavings, Nat.mul_comm]

/-- Witness of C10: 2500 a month on top of 1000 at 2.5 percent, three years, in EUR. -/
theorem computeResults_currency_independent_witness :
    1 ≤ 3 ∧
      (computeResults (2500 : ℚ) 1000 (5 / 2) 3 Currency.EUR).totalSavings
        = calculateSavings (12 * 3) (2500 : ℚ) 1000 (5 / 2)
      ∧ (computeResults (2500 : ℚ) 1000 (5 / 2) 3 Currency.EUR).yearlyBreakdown
        = calculateYearlyBreakdown (2500 : ℚ) 1000 3 (5 / 2) :=
  ⟨by decide, computeResults_currency_independent Currency.EUR (2500 : ℚ) 1000 (5 / 2) 3
    (by decide)⟩

/-- C7: for at least one year the breakdown has exactly `horizonYears` rows, and the `k`-th
row has year `k`, end balance `calculateSavings (12 * k)`, start balance `s` for `k = 1` and
`calculateSavings (12 * (k - 1))` otherwise, contribution `12 * c`, interest
`endBalance - startBalance - contribution` and total return
`interest / (startBalance + contribution) * 100`. -/
theorem calculateYearlyBreakdown_rows (c s y : K) (horizonYears : Nat) (hh : 1 ≤ horizonYears) :
    (calculateYearlyBreakdown c s horizonYears y).length = horizonYears
    ∧ ∀ k : Nat, 1 ≤ k → k ≤ horizonYears →
        ∃ row : YearRow K, (calculateYearlyBreakdown c s horizonYears y)[k - 1]? = some row
          ∧ row.year = k
          ∧ row.endBalance = calculateSavings (12 * k) c s y
          ∧ row.startBalance = (if k = 1 then s else calculateSavings (12 * (k - 1)) c s y)
          ∧ row.contribution = 12 * c
          ∧ row.interest = row.endBalance - row.startBalance - row.contribution
          ∧ row.totalReturn = row.interest / (row.startBalance + row.contribution) * 100 := by
  refine ⟨by rw [calculateYearlyBreakdown_length]; omega, ?_⟩
  intro k hk1 hk2
  refine ⟨yearRowAt c s y k, ?_, rfl, ?_, ?_, ?_, rfl, rfl⟩
  · rw [calculateYearlyBreakdown_getElem? c s horizonYears y (k - 1) (by omega)]
    congr 2
    omega
  · simp only [yearRowAt, Nat.mul_comm]
  · by_cases h1 : k = 1
    · subst h1
      simp [yearRowAt, calculateSavings_zero_months]
    · simp only [yearRowAt, if_neg h1, Nat.mul_comm]
  · simp only [yearRowAt, mul_comm]

/-- Witness of C7: three years of 2500 a month from nothing at 2.5 percent. -/
theorem calculateYearlyBreakdown_rows_witness :
    1 ≤ 3 ∧ (calculateYearlyBreakdown (2500 : ℚ) 0 3 (5 / 2)).length = 3
    ∧ ∀ k : Nat, 1 ≤ k → k ≤ 3 →
        ∃ row : YearRow ℚ, (calculateYearlyBreakdown (2500 : ℚ) 0 3 (5 / 2))[k - 1]? = some row
          ∧ row.year = k
          ∧ row.endBalance = calculateSavings (12 * k) (2500 : ℚ) 0 (5 / 2)
          ∧ row.startBalance
              = (if k = 1 then (0 : ℚ) else calculateSavings (12 * (k - 1)) (2500 : ℚ) 0 (5 / 2))
          ∧ row.contribution = 12 * 2500
          ∧ row.interest = row.endBalance - row.startBalance - row.contribution
          ∧ row.totalReturn = row.interest / (row.startBalance + row.contribution) * 100 :=
  ⟨by decide, calculateYearlyBreakdown_rows (2500 : ℚ) 0 (5 / 2) 3 (by decide)⟩

/-- C3: for at least two years and every pair of consecutive years `k`, `k + 1`, the end
balance of the row of year `k` is the start balance of the row of year `k + 1`, both in the
list returned by `calculateYearlyBreakdown` and in the rows the hook has converted to the
selected currency. -/
theorem breakdown_endBalance_eq_next_startBalance (c s y : K) (horizonYears : Nat)
    (currency : Currency) (_hh : 2 ≤ horizonYears) (k : Nat) (hk1 : 1 ≤ k)
    (hk2 : k < horizonYears) :
    (∃ r1 r2 : YearRow K, (calculateYearlyBreakdown c s horizonYears y)[k - 1]? = some r1
        ∧ (calculateYearlyBreakdown c s horizonYears y)[k]? = some r2
        ∧ r1.endBalance = r2.startBalance)
    ∧ (∃ r1 r2 : YearRow K,
        (computeResults c s y horizonYears currency).yearlyBreakdown[k - 1]? = some r1
        ∧ (computeResults c s y horizonYears currency).yearlyBreakdown[k]? = some r2
        ∧ r1.endBalance = r2.startBalance) := by
  have key : ∀ m t : K, ∃ r1 r2 : YearRow K,
      (calculateYearlyBreakdown m t horizonYears y)[k - 1]? = some r1
        ∧ (calculateYearlyBreakdown m t horizonYears y)[k]? = some r2
        ∧ r1.endBalance = r2.startBalance := by
    intro m t
    refine ⟨yearRowAt m t y (k - 1 + 1), yearRowAt m t y (k + 1),
      calculateYearlyBreakdown_getElem? m t horizonYears y (k - 1) (by omega),
      calculateYearlyBreakdown_getElem? m t horizonYears y k (by omega), ?_⟩
    have e : k - 1 + 1 = k := by omega
    simp [yearRowAt, e]
  refine ⟨key c s, ?_⟩
  rw [computeResults_yearlyBreakdown]
  exact key c s

/-- Witness of C3: years 1 and 2 of a three-year run shown in USD. -/
theorem breakdown_endBalance_eq_next_startBalance_witness :
    2 ≤ 3 ∧ 1 ≤ 1 ∧ 1 < 3
    ∧ (∃ r1 r2 : YearRow ℚ, (calculateYearlyBreakdown (2500 : ℚ) 1000 3 (5 / 2))[1 - 1]? = some r1
        ∧ (calculateYearlyBreakdown (2500 : ℚ) 1000 3 (5 / 2))[1]? = some r2
        ∧ r1.endBalance = r2.startBalance)
    ∧ (∃ r1 r2 : YearRow ℚ,
        (computeResults (2500 : ℚ) 1000 (5 / 2) 3 Currency.USD).yearlyBreakdown[1 - 1]? = some r1
        ∧ (computeResults (2500 : ℚ) 1000 (5 / 2) 3 Currency.USD).yearlyBreakdown[1]? = some r2
        ∧ r1.endBalance = r2.startBalance) :=
  ⟨by decide, by decide, by decide,
    breakdown_endBalance_eq_next_startBalance (2500 : ℚ) 1000 (5 / 2) 3 Currency.USD
      (by decide) 1 (by decide) (by decide)⟩

/-- C8: with a positive yield, non-negative contribution and starting balance of which one
is positive, and at least one year, every row of the breakdown has strictly positive
interest and strictly positive total return; for 2500 a month from nothing at 2.5 percent
over three years there are exactly 3 rows, each with contribution 30000 and positive total
return. -/
theorem calculateYearlyBreakdown_interest_pos :
    (∀ (monthlyContribution startingBalance annualYieldPercent : K) (horizonYears : Nat),
      0 < annualYieldPercent → 0 ≤ monthlyContribution → 0 ≤ startingBalance →
      (0 < monthlyContribution ∨ 0 < startingBalance) → 1 ≤ horizonYears →
      ∀ row ∈ calculateYearlyBreakdown monthlyContribution startingBalance horizonYears
          annualYieldPercent,
        0 < row.interest ∧ 0 < row.totalReturn)
    ∧ (calculateYearlyBreakdown (2500 : K) 0 3 2.5).length = 3
    ∧ ∀ row ∈ calculateYearlyBreakdown (2500 : K) 0 3 2.5,
        row.contribution = 30000 ∧ 0 < row.totalReturn := by
  have general : ∀ (c s y : K) (h : Nat), 0 < y → 0 ≤ c → 0 ≤ s → (0 < c ∨ 0 < s) → 1 ≤ h →
      ∀ row ∈ calculateYearlyBreakdown c s h y, 0 < row.interest ∧ 0 < row.totalReturn := by
    intro c s y h hy hc hs hcs _ row hrow
    obtain ⟨k, hk1, _, rfl⟩ := (mem_calculateYearlyBreakdown c s h y row).mp hrow
    have hy' : (-1200 : K) < y := by linarith
    have e : k * 12 = (k - 1) * 12 + (11 + 1) := by omega
    have hgrow := iterate_add_gt c s y hc hs hcs hy ((k - 1) * 12) 11
    have hpos := iterate_add_pos c s y hc hs hcs hy' ((k - 1) * 12)
    have hint : 0 < (monthlyStep c y)^[(k - 1) * 12 + (11 + 1)] s
        - (monthlyStep c y)^[(k - 1) * 12] s - c * 12 := by
      push_cast at hgrow
      linarith
    have hden : 0 < (monthlyStep c y)^[(k - 1) * 12] s + c * 12 := by linarith
    simp only [yearRowAt, calculateSavings_eq_iterate]
    rw [e]
    exact ⟨hint, mul_pos (div_pos hint hden) (by norm_num)⟩
  refine ⟨general, by rw [calculateYearlyBreakdown_length], ?_⟩
  intro row hrow
  refine ⟨?_, (general 2500 0 2.5 3 (by norm_num) (by norm_num) (le_refl 0)
    (Or.inl (by norm_num)) (by decide) row hrow).2⟩
  obtain ⟨k, _, _, rfl⟩ := (mem_calculateYearlyBreakdown (2500 : K) 0 3 2.5 row).mp hrow
  simp only [yearRowAt]
  norm_num

/-- Witness of C8: the three rows of 2500 a month from nothing at 2.5 percent. -/
theorem calculateYearlyBreakdown_interest_pos_witness :
    (0 : ℚ) < 5 / 2 ∧ (0 : ℚ) ≤ 2500 ∧ (0 : ℚ) ≤ 0 ∧ ((0 : ℚ) < 2500 ∨ (0 : ℚ) < 0) ∧ 1 ≤ 3
    ∧ ∀ row ∈ calculateYearlyBreakdown (2500 : ℚ) 0 3 (5 / 2),
        0 < row.interest ∧ 0 < row.totalReturn :=
  ⟨by norm_num, by norm_num, le_refl 0, Or.inl (by norm_num), by decide,
    (@calculateYearlyBreakdown_interest_pos ℚ _).1 2500 0 (5 / 2) 3 (by norm_num) (by norm_num)
      (le_refl 0) (Or.inl (by norm_num)) (by decide)⟩

/-- C9 fails as stated: with 100 a month at 12 percent, the amount added in month 13 is not
the same for a starting balance of 1200 as for a starting balance of 0. -/
theorem later_months_depend_on_startingBalance :
    calculateSavings 13 (100 : ℚ) 1200 12 - calculateSavings 12 (100 : ℚ) 1200 12
      ≠ calculateSavings 13 (100 : ℚ) 0 12 - calculateSavings 12 (100 : ℚ) 0 12 := by
  simp only [calculateSavings_eq_iterate, Function.iterate_succ, Function.iterate_zero,
    Function.comp, id_eq, monthlyStep]
  norm_num

/-- C9 amended: for more than twelve months the computation continues from the first-year
balance, which contains the starting balance; the amounts added after the first year for two
starting balances `s` and `t` differ by `(s - t) * (q ^ months - q ^ 12)` with
`q = 1 + y/100/12`, so they agree exactly when `s = t` or `q ^ months = q ^ 12` (as at zero
yield). -/
theorem later_months_difference (months : Nat) (c y s t : K) (h : 12 < months) :
    calculateSavings months c s y = directIteration (months - 12) c (calculateSavings 12 c s y) y
    ∧ (calculateSavings months c s y - calculateSavings 12 c s y)
        - (calculateSavings months c t y - calculateSavings 12 c t y)
        = (s - t) * ((1 + y / 100 / 12) ^ months - (1 + y / 100 / 12) ^ 12)
    ∧ ((calculateSavings months c s y - calculateSavings 12 c s y
          = calculateSavings months c t y - calculateSavings 12 c t y)
        ↔ (s = t ∨ (1 + y / 100 / 12) ^ months = (1 + y / 100 / 12) ^ 12))
    ∧ (y = 0 → calculateSavings months c s y - calculateSavings 12 c s y
          = calculateSavings months c t y - calculateSavings 12 c t y) := by
  have hdiff : (calculateSavings months c s y - calculateSavings 12 c s y)
        - (calculateSavings months c t y - calculateSavings 12 c t y)
        = (s - t) * ((1 + y / 100 / 12) ^ months - (1 + y / 100 / 12) ^ 12) := by
    have h1 := monthlyStep_iterate_sub c y months s t
    have h2 := monthlyStep_iterate_sub c y 12 s t
    simp only [calculateSavings_eq_iterate]
    linear_combination h1 - h2
  have hiff : (calculateSavings months c s y - calculateSavings 12 c s y
          = calculateSavings months c t y - calculateSavings 12 c t y)
        ↔ (s = t ∨ (1 + y / 100 / 12) ^ months = (1 + y / 100 / 12) ^ 12) := by
    rw [← sub_eq_zero, hdiff, mul_eq_zero, sub_eq_zero, sub_eq_zero]
  refine ⟨calculateSavings_gt months c s y h, hdiff, hiff, ?_⟩
  intro hy
  rw [hiff, hy]
  right
  simp

/-- Witness of C9 amended: 24 months of 100 a month at 12 percent from 1200 and from 0. -/
theorem later_months_difference_witness :
    12 < 24
    ∧ (calculateSavings 24 (100 : ℚ) 1200 12 - calculateSavings 12 (100 : ℚ) 1200 12)
        - (calculateSavings 24 (100 : ℚ) 0 12 - calculateSavings 12 (100 : ℚ) 0 12)
        = (1200 - 0) * ((1 + 12 / 100 / 12) ^ 24 - (1 + 12 / 100 / 12) ^ 12) :=
  ⟨by decide, (later_months_difference 24 (100 : ℚ) 12 1200 0 (by decide)).2.1⟩

/-- C6 fails as stated: the unknown code `XYZ` is not in the table, and the conversion of
100 from it returns `NaN` instead of raising an `InvalidCurrency` error. -/
theorem convertCurrencyByCode_unknown_returns_NaN :
    Currency.ofCode "XYZ" = none
    ∧ convertCurrencyByCode (100 : ℚ) "XYZ" "BGN" = Except.ok JSNumber.NaN
    ∧ convertCurrencyByCode (100 : ℚ) "XYZ" "BGN" ≠ Except.error "InvalidCurrency" := by
  refine ⟨rfl, rfl, ?_⟩
  intro h
  cases h

/-- C6 amended: `convertCurrency` never raises an error; it returns a finite amount,
`amount / rate[from] * rate[to]`, exactly when both codes are keys of the rate table (BGN,
USD, EUR), and it returns `NaN` exactly when one of them is not. -/
theorem convertCurrencyByCode_total (amount : K) (fromCurrency toCurrency : String) :
    (∃ v, convertCurrencyByCode amount fromCurrency toCurrency = Except.ok v)
    ∧ ((∃ f t, Currency.ofCode fromCurrency = some f ∧ Currency.ofCode toCurrency = some t
          ∧ convertCurrencyByCode amount fromCurrency toCurrency
            = Except.ok (JSNumber.finite (amount / EXCHANGE_RATES f * EXCHANGE_RATES t)))
        ↔ ((fromCurrency = "BGN" ∨ fromCurrency = "USD" ∨ fromCurrency = "EUR")
          ∧ (toCurrency = "BGN" ∨ toCurrency = "USD" ∨ toCurrency = "EUR")))
    ∧ (convertCurrencyByCode amount fromCurrency toCurrency = Except.ok JSNumber.NaN
        ↔ ¬ ((fromCurrency = "BGN" ∨ fromCurrency = "USD" ∨ fromCurrency = "EUR")
          ∧ (toCurrency = "BGN" ∨ toCurrency = "USD" ∨ toCurrency = "EUR"))) := by
  have hcode : ∀ code : String,
      (code = "BGN" ∨ code = "USD" ∨ code = "EUR") ↔ ∃ cur, Currency.ofCode code = some cur := by
    intro code
    unfold Currency.ofCode
    split <;> simp_all
  rw [hcode fromCurrency, hcode toCurrency]
  unfold convertCurrencyByCode
  cases hf : Currency.ofCode fromCurrency <;> cases ht : Currency.ofCode toCurrency <;>
    simp [convertCurrency]

end Claims

end InvestmentsCalculator
